import Mathlib

/-!
# Verification of the phosphor-domutil drag/drop gesture engine

This development is a shallow embedding of the drag-and-drop subsystem of
`phosphor-domutil` (the current source: `DragData`, `DragHandler`,
`DropHandler`, `overrideCursor`, `hitTestRect`, `runDropHandlers` and their
helpers), together with theorems settling the specification claims about it.

Modelling conventions:
* Client coordinates are `Int` (pixel values); `Math.abs` is `Int.natAbs`.
* DOM side effects are explicit state: the document body's cursor style and
  the `p-mod-override-cursor` marker class live in `CursorState`; the drop
  registry is a `List DropRecord` in registration (insertion) order, which
  matches `for...in` enumeration of the registry object keyed by
  `'dropID-n'` strings.
* User callbacks are external code.  They are modelled by presence flags on
  the handler (the source checks `handler.onX` for `null` before calling)
  and each invocation is recorded as an emitted `Ev` in a trace; their
  bodies are opaque and are not given effects on the library state, which
  matches the documented constraint that callbacks must not mutate the
  registry.
* The ghost node's geometry is purely cosmetic and is not modelled; the
  `DragData` constructor's `ghost` argument is dropped.
* `DisposableDelegate` (from phosphor-disposable) is modelled by an
  `Override` record carrying a run-once `disposed` flag.
-/

/-- The body cursor style and the `p-mod-override-cursor` marker class,
together with the module-level `overrideID` counter (`var overrideID = 0`). -/
structure CursorState where
  overrideID : Nat
  cursor : String
  hasClass : Bool
deriving Repr, DecidableEq

/-- The document state before any override: counter 0, empty cursor style,
no marker class. -/
def initialCursorState : CursorState := ⟨0, "", false⟩

/-- The disposable returned by `overrideCursor`: the id captured by the
closure, plus the run-once flag of the `DisposableDelegate` wrapper. -/
structure Override where
  id : Nat
  disposed : Bool
deriving Repr, DecidableEq

/-- `overrideCursor(cursor)`: increment the module counter, set the body
cursor style, add the marker class, and return a disposable capturing the
new id. -/
def overrideCursor (cursor : String) (s : CursorState) : Override × CursorState :=
  let id := s.overrideID + 1
  (⟨id, false⟩, { overrideID := id, cursor := cursor, hasClass := true })

/-- Disposing the delegate returned by `overrideCursor`: a second dispose is
a no-op (`DisposableDelegate`); the callback clears the cursor style and
removes the marker class only when the captured id is still current. -/
def Override.dispose (o : Override) (s : CursorState) : Override × CursorState :=
  if o.disposed then (o, s)
  else ({ o with disposed := true },
    if o.id = s.overrideID then { s with cursor := "", hasClass := false } else s)

/-- A client bounding rectangle (`ClientRect`), in client pixels. -/
structure ClientRect where
  left : Int
  top : Int
  right : Int
  bottom : Int
deriving Repr, DecidableEq

/-- `hitTestRect(r, x, y)`: `x >= r.left && x < r.right && y >= r.top && y < r.bottom`. -/
def hitTestRect (r : ClientRect) (x y : Int) : Bool :=
  decide (x ≥ r.left) && decide (x < r.right) && decide (y ≥ r.top) && decide (y < r.bottom)

/-- The callback events emitted by the engine, in invocation order.  A
`dragStart` event records the `dropAction` value of the `DragData` passed to
the drag-start callback; a `cursorOverride` event records each invocation of
`overrideCursor` with its cursor string. -/
inductive Ev where
  | cursorOverride (cursor : String)
  | dragStart (action : String)
  | drag
  | dragEnd
  | dragEnter (id : Nat)
  | dragOver (id : Nat)
  | dragLeave (id : Nat)
  | drop (id : Nat)
deriving Repr, DecidableEq

/-- The `DragData` object: the current `_action` string and the `_override`
disposable most recently installed by the constructor or the `dropAction`
setter.  The mime payload map and the ghost node are not needed by any
claim and are omitted. -/
structure DragData where
  action : String
  overrideRef : Override
deriving Repr, DecidableEq

/-- The `DragData` constructor: `_action = 'none'` and
`_override = overrideCursor('no-drop')`. -/
def DragData.create (s : CursorState) : DragData × CursorState × List Ev :=
  let (o, s1) := overrideCursor "no-drop" s
  ({ action := "none", overrideRef := o }, s1, [Ev.cursorOverride "no-drop"])

/-- The `dropAction` setter: same value is an early return; otherwise the
`switch` updates the action and installs a new cursor override for the four
enum members (`copy → 'copy'`, `link → 'alias'`, `move → 'move'`,
`none → 'no-drop'`), and silently falls through for any other value. -/
def DragData.setDropAction (d : DragData) (s : CursorState) (value : String) :
    DragData × CursorState × List Ev :=
  if value = d.action then (d, s, [])
  else if value = "copy" then
    let (o, s1) := overrideCursor "copy" s
    ({ d with action := value, overrideRef := o }, s1, [Ev.cursorOverride "copy"])
  else if value = "link" then
    let (o, s1) := overrideCursor "alias" s
    ({ d with action := value, overrideRef := o }, s1, [Ev.cursorOverride "alias"])
  else if value = "move" then
    let (o, s1) := overrideCursor "move" s
    ({ d with action := value, overrideRef := o }, s1, [Ev.cursorOverride "move"])
  else if value = "none" then
    let (o, s1) := overrideCursor "no-drop" s
    ({ d with action := value, overrideRef := o }, s1, [Ev.cursorOverride "no-drop"])
  else (d, s, [])

/-- C9: the hit test is a half-open interval test: `hitTestRect r x y` is
true iff `x ∈ [left, right)` and `y ∈ [top, bottom)` — left and top edges
inclusive, right and bottom edges exclusive. -/
theorem hitTestRect_half_open (r : ClientRect) (x y : Int) :
    hitTestRect r x y = true ↔
      (r.left ≤ x ∧ x < r.right ∧ r.top ≤ y ∧ y < r.bottom) := by
  simp [hitTestRect, and_assoc]

/-- C8: after any state reached by a sequence of `overrideCursor` calls,
the override just created is the active one (its captured id is the current
counter and it is not yet disposed); disposing any override whose id is not
current is a no-op that leaves the newer override's cursor and marker class
intact, while disposing the active override clears the cursor style and
removes the marker class. -/
theorem overrideCursor_stacking (s : CursorState) (c : String) :
    (overrideCursor c s).2.cursor = c ∧
    (overrideCursor c s).2.hasClass = true ∧
    (overrideCursor c s).1.id = (overrideCursor c s).2.overrideID ∧
    (overrideCursor c s).1.disposed = false ∧
    (∀ o : Override, o.id ≠ (overrideCursor c s).2.overrideID →
      (o.dispose (overrideCursor c s).2).2 = (overrideCursor c s).2) ∧
    ((overrideCursor c s).1.dispose (overrideCursor c s).2).2.cursor = "" ∧
    ((overrideCursor c s).1.dispose (overrideCursor c s).2).2.hasClass = false := by
  refine ⟨rfl, rfl, rfl, rfl, ?_, ?_, ?_⟩
  · intro o ho
    by_cases hd : o.disposed <;> simp [Override.dispose, hd, ho]
  · simp [Override.dispose, overrideCursor]
  · simp [Override.dispose, overrideCursor]

/-- Witness for C8 at a concrete state: creating overrides A then B,
disposing A (older, id 1 ≠ current id 2) leaves B's `'move'` cursor active,
and disposing B (the active override) clears the cursor and marker class. -/
theorem overrideCursor_stacking_witness :
    ((⟨1, false⟩ : Override).id ≠ (overrideCursor "move" (overrideCursor "copy" initialCursorState).2).2.overrideID ∧
      ((⟨1, false⟩ : Override).dispose (overrideCursor "move" (overrideCursor "copy" initialCursorState).2).2).2 =
        (overrideCursor "move" (overrideCursor "copy" initialCursorState).2).2) ∧
    ((overrideCursor "move" (overrideCursor "copy" initialCursorState).2).1.dispose
        (overrideCursor "move" (overrideCursor "copy" initialCursorState).2).2).2.cursor = "" := by
  refine ⟨⟨by decide, ?_⟩, ?_⟩
  · exact (overrideCursor_stacking (overrideCursor "copy" initialCursorState).2 "move").2.2.2.2.1
      ⟨1, false⟩ (by decide)
  · exact (overrideCursor_stacking (overrideCursor "copy" initialCursorState).2 "move").2.2.2.2.2.1

/-- C5: assigning to `dropAction` changes state only for a member of
{copy, link, move, none} that differs from the current value.  Assigning
the current value is a no-op that creates no new cursor override; assigning
a value outside the enum is silently rejected, retaining the previous value
and override; a valid different value updates the action and installs a
fresh cursor override (`copy → 'copy'`, `link → 'alias'`, `move → 'move'`,
`none → 'no-drop'`). -/
theorem dropAction_setter (d : DragData) (s : CursorState) (v : String) :
    (v = d.action → d.setDropAction s v = (d, s, [])) ∧
    (v ≠ "copy" → v ≠ "link" → v ≠ "move" → v ≠ "none" →
      d.setDropAction s v = (d, s, [])) ∧
    (v ≠ d.action →
      (v = "copy" →
        (d.setDropAction s v).1.action = "copy" ∧
        (d.setDropAction s v).2.1.cursor = "copy" ∧
        (d.setDropAction s v).2.1.hasClass = true ∧
        (d.setDropAction s v).2.1.overrideID = s.overrideID + 1 ∧
        (d.setDropAction s v).1.overrideRef = ⟨s.overrideID + 1, false⟩) ∧
      (v = "link" →
        (d.setDropAction s v).1.action = "link" ∧
        (d.setDropAction s v).2.1.cursor = "alias" ∧
        (d.setDropAction s v).2.1.hasClass = true ∧
        (d.setDropAction s v).2.1.overrideID = s.overrideID + 1 ∧
        (d.setDropAction s v).1.overrideRef = ⟨s.overrideID + 1, false⟩) ∧
      (v = "move" →
        (d.setDropAction s v).1.action = "move" ∧
        (d.setDropAction s v).2.1.cursor = "move" ∧
        (d.setDropAction s v).2.1.hasClass = true ∧
        (d.setDropAction s v).2.1.overrideID = s.overrideID + 1 ∧
        (d.setDropAction s v).1.overrideRef = ⟨s.overrideID + 1, false⟩) ∧
      (v = "none" →
        (d.setDropAction s v).1.action = "none" ∧
        (d.setDropAction s v).2.1.cursor = "no-drop" ∧
        (d.setDropAction s v).2.1.hasClass = true ∧
        (d.setDropAction s v).2.1.overrideID = s.overrideID + 1 ∧
        (d.setDropAction s v).1.overrideRef = ⟨s.overrideID + 1, false⟩)) := by
  refine ⟨?_, ?_, ?_⟩
  · intro hv
    simp [DragData.setDropAction, hv]
  · intro h1 h2 h3 h4
    by_cases hv : v = d.action
    · simp [DragData.setDropAction, hv]
    · simp [DragData.setDropAction, hv, h1, h2, h3, h4]
  · intro hv
    refine ⟨?_, ?_, ?_, ?_⟩ <;> intro he <;> subst he <;>
      simp [DragData.setDropAction, hv, overrideCursor]

/-- Witness for C5 at concrete inputs: on fresh drag data (action `'none'`),
assigning `'copy'` updates the action to `'copy'` and installs a `'copy'`
cursor override; re-assigning the current value `'none'` is a no-op; and
assigning the invalid value `'foo'` is silently rejected. -/
theorem dropAction_setter_witness :
    (("copy" : String) ≠ "none" ∧
      ((⟨"none", ⟨1, false⟩⟩ : DragData).setDropAction ⟨1, "no-drop", true⟩ "copy").1.action = "copy" ∧
      ((⟨"none", ⟨1, false⟩⟩ : DragData).setDropAction ⟨1, "no-drop", true⟩ "copy").2.1.cursor = "copy") ∧
    ((⟨"none", ⟨1, false⟩⟩ : DragData).setDropAction ⟨1, "no-drop", true⟩ "none" =
      (⟨"none", ⟨1, false⟩⟩, ⟨1, "no-drop", true⟩, [])) ∧
    ((⟨"none", ⟨1, false⟩⟩ : DragData).setDropAction ⟨1, "no-drop", true⟩ "foo" =
      (⟨"none", ⟨1, false⟩⟩, ⟨1, "no-drop", true⟩, [])) := by
  refine ⟨⟨by decide, ?_, ?_⟩, ?_, ?_⟩
  · exact (((dropAction_setter ⟨"none", ⟨1, false⟩⟩ ⟨1, "no-drop", true⟩ "copy").2.2
      (by decide)).1 rfl).1
  · exact (((dropAction_setter ⟨"none", ⟨1, false⟩⟩ ⟨1, "no-drop", true⟩ "copy").2.2
      (by decide)).1 rfl).2.1
  · exact (dropAction_setter ⟨"none", ⟨1, false⟩⟩ ⟨1, "no-drop", true⟩ "none").1 rfl
  · exact (dropAction_setter ⟨"none", ⟨1, false⟩⟩ ⟨1, "no-drop", true⟩ "foo").2.1
      (by decide) (by decide) (by decide) (by decide)

/-- The observable surface of a `DropHandler`: its registry id
(`nextDropID`), the bounding rect its node reports, and which of the four
callback slots are assigned (the source checks each for `null`). -/
structure DropHandlerSpec where
  id : Nat
  nodeRect : ClientRect
  hasDragEnter : Bool
  hasDragOver : Bool
  hasDragLeave : Bool
  hasDrop : Bool
deriving Repr, DecidableEq

/-- `createDropRecord(handler)`: `{ handler, entered: false, rect: null }`. -/
structure DropRecord where
  handler : DropHandlerSpec
  entered : Bool
  rect : Option ClientRect
deriving Repr, DecidableEq

/-- `createDropRecord(handler)` builds the initial record for a handler. -/
def createDropRecord (h : DropHandlerSpec) : DropRecord :=
  { handler := h, entered := false, rect := none }

/-- `invalidateCachedDropData()`: for every record, `entered = false` and
`rect = null`. -/
def invalidateCachedDropData (reg : List DropRecord) : List DropRecord :=
  reg.map (fun r => { r with entered := false, rect := none })

/-- `DropHandler.dispose()`: remove the record from the registry (`delete
dropRegistry[this._id]`) and null the callbacks; the node and context are
nulled on the handler itself.  Deleting an absent key is a no-op, so this
is idempotent. -/
def dropHandlerDispose (reg : List DropRecord) (id : Nat) : List DropRecord :=
  reg.filter (fun r => r.handler.id ≠ id)

/-- `runDragEnter`: invoke the drag-enter callback if assigned. -/
def runDragEnter (h : DropHandlerSpec) : List Ev :=
  if h.hasDragEnter then [Ev.dragEnter h.id] else []

/-- `runDragOver`: invoke the drag-over callback if assigned. -/
def runDragOver (h : DropHandlerSpec) : List Ev :=
  if h.hasDragOver then [Ev.dragOver h.id] else []

/-- `runDragLeave`: invoke the drag-leave callback if assigned, then set
`data.dropAction = 'none'`. -/
def runDragLeave (h : DropHandlerSpec) (d : DragData) (s : CursorState) :
    DragData × CursorState × List Ev :=
  let sd := d.setDropAction s "none"
  (sd.1, sd.2.1, (if h.hasDragLeave then [Ev.dragLeave h.id] else []) ++ sd.2.2)

/-- `runDrop`: invoke the drop callback if assigned, else set
`data.dropAction = 'none'`. -/
def runDrop (h : DropHandlerSpec) (d : DragData) (s : CursorState) :
    DragData × CursorState × List Ev :=
  if h.hasDrop then (d, s, [Ev.drop h.id])
  else d.setDropAction s "none"

/-- The semantic drop handler actions (`const enum DropHandlerAction`). -/
inductive DropHandlerAction where
  | Drag
  | Drop
deriving Repr, DecidableEq

/-- The rect caching at the top of each loop of `runDropHandlers`:
`if (!record.rect) record.rect = handler.node.getBoundingClientRect()`;
returns the (now cached) rect together with the updated record. -/
def cacheRect (r : DropRecord) : ClientRect × DropRecord :=
  match r.rect with
  | some rc => (rc, r)
  | none => (r.handler.nodeRect, { r with rect := some r.handler.nodeRect })

/-- The result of a registry pass: the updated registry (in order), the
drag data, the cursor state, and the emitted callback events. -/
structure DispatchResult where
  registry : List DropRecord
  data : DragData
  cursor : CursorState
  events : List Ev
deriving Repr, DecidableEq

/-- The first loop of `runDropHandlers`: cache each record's rect, skip
un-entered records, and for every entered record whose rect no longer
contains the pointer, clear `entered` and run `runDragLeave`. -/
def leavePass : List DropRecord → Int → Int → DragData → CursorState → DispatchResult
  | [], _, _, d, s => ⟨[], d, s, []⟩
  | r :: rs, x, y, d, s =>
    let c := cacheRect r
    if c.2.entered then
      if hitTestRect c.1 x y then
        let rest := leavePass rs x y d s
        ⟨c.2 :: rest.registry, rest.data, rest.cursor, rest.events⟩
      else
        let lv := runDragLeave c.2.handler d s
        let rest := leavePass rs x y lv.1 lv.2.1
        ⟨{ c.2 with entered := false } :: rest.registry, rest.data, rest.cursor,
          lv.2.2 ++ rest.events⟩
    else
      let rest := leavePass rs x y d s
      ⟨c.2 :: rest.registry, rest.data, rest.cursor, rest.events⟩

/-- The body of the second loop of `runDropHandlers` for one record: if the
cached rect contains the pointer, mark and run drag-enter when not yet
entered, then run drag-over (drag pass) or drop (drop pass).  A record with
no cached rect is left untouched (the first loop has always cached it, so
that branch is unreachable in an actual dispatch). -/
def dispatchOne (action : DropHandlerAction) (x y : Int) (r : DropRecord)
    (d : DragData) (s : CursorState) :
    DropRecord × DragData × CursorState × List Ev :=
  match r.rect with
  | none => (r, d, s, [])
  | some rc =>
    if hitTestRect rc x y then
      let r1 := if r.entered then r else { r with entered := true }
      let evs1 := if r.entered then ([] : List Ev) else runDragEnter r.handler
      match action with
      | .Drag => (r1, d, s, evs1 ++ runDragOver r.handler)
      | .Drop =>
        let dr := runDrop r.handler d s
        (r1, dr.1, dr.2.1, evs1 ++ dr.2.2)
    else (r, d, s, [])

/-- The second loop of `runDropHandlers`, folding `dispatchOne` over the
registry in order. -/
def dispatchPass : List DropRecord → DropHandlerAction → Int → Int →
    DragData → CursorState → DispatchResult
  | [], _, _, _, d, s => ⟨[], d, s, []⟩
  | r :: rs, action, x, y, d, s =>
    let one := dispatchOne action x y r d s
    let rest := dispatchPass rs action x y one.2.1 one.2.2.1
    ⟨one.1 :: rest.registry, rest.data, rest.cursor, one.2.2.2 ++ rest.events⟩

/-- `runDropHandlers(action, event, data)`: the leave loop, then the
dispatch loop. -/
def runDropHandlers (action : DropHandlerAction) (x y : Int)
    (reg : List DropRecord) (d : DragData) (s : CursorState) : DispatchResult :=
  let p1 := leavePass reg x y d s
  let p2 := dispatchPass p1.registry action x y p1.data p1.cursor
  ⟨p2.registry, p2.data, p2.cursor, p1.events ++ p2.events⟩

/-- The event trace of one `runDropHandlers` dispatch. -/
def dropTrace (action : DropHandlerAction) (x y : Int)
    (reg : List DropRecord) (d : DragData) (s : CursorState) : List Ev :=
  (runDropHandlers action x y reg d s).events

/-- Recognizer for drag-enter events. -/
def Ev.isDragEnter : Ev → Bool
  | .dragEnter _ => true
  | _ => false

/-- Recognizer for drag-leave events. -/
def Ev.isDragLeave : Ev → Bool
  | .dragLeave _ => true
  | _ => false

/-- The `dropAction` setter emits at most one `cursorOverride` event. -/
theorem setDropAction_events (d : DragData) (s : CursorState) (v : String) :
    (d.setDropAction s v).2.2 = [] ∨
      ∃ c, (d.setDropAction s v).2.2 = [Ev.cursorOverride c] := by
  unfold DragData.setDropAction
  split_ifs <;> simp [overrideCursor]

/-- `runDragLeave` never emits a drag-enter event. -/
theorem runDragLeave_no_enter (h : DropHandlerSpec) (d : DragData) (s : CursorState) :
    ∀ e ∈ (runDragLeave h d s).2.2, e.isDragEnter = false := by
  intro e he
  unfold runDragLeave at he
  simp only [List.mem_append] at he
  rcases he with he | he
  · split_ifs at he <;> simp only [List.mem_singleton, List.not_mem_nil] at he
    subst he; rfl
  · rcases setDropAction_events d s "none" with h0 | ⟨c, h0⟩ <;> rw [h0] at he <;>
      simp only [List.mem_singleton, List.not_mem_nil] at he
    subst he; rfl

/-- The leave pass never emits a drag-enter event. -/
theorem leavePass_no_enter (rs : List DropRecord) (x y : Int)
    (d : DragData) (s : CursorState) :
    ∀ e ∈ (leavePass rs x y d s).events, e.isDragEnter = false := by
  induction rs generalizing d s with
  | nil => intro e he; simp [leavePass] at he
  | cons r rs ih =>
    intro e he
    by_cases hent : (cacheRect r).2.entered
    · by_cases hhit : hitTestRect (cacheRect r).1 x y
      · rw [leavePass] at he
        simp [hent, hhit] at he
        exact ih d s e he
      · rw [leavePass] at he
        simp [hent, hhit] at he
        rcases he with he | he
        · exact runDragLeave_no_enter _ d s e he
        · exact ih _ _ e he
    · rw [leavePass] at he
      simp [hent] at he
      exact ih d s e he

/-- `runDrop` never emits a drag-leave event. -/
theorem runDrop_no_leave (h : DropHandlerSpec) (d : DragData) (s : CursorState) :
    ∀ e ∈ (runDrop h d s).2.2, e.isDragLeave = false := by
  intro e he
  unfold runDrop at he
  split_ifs at he
  · simp only [List.mem_singleton] at he; subst he; rfl
  · rcases setDropAction_events d s "none" with h0 | ⟨c, h0⟩ <;> rw [h0] at he <;>
      simp only [List.mem_singleton, List.not_mem_nil] at he
    subst he; rfl

/-- `runDragEnter` never emits a drag-leave event. -/
theorem runDragEnter_no_leave (h : DropHandlerSpec) :
    ∀ e ∈ runDragEnter h, e.isDragLeave = false := by
  intro e he
  unfold runDragEnter at he
  split_ifs at he <;> simp only [List.mem_singleton, List.not_mem_nil] at he
  subst he; rfl

/-- `runDragOver` never emits a drag-leave event. -/
theorem runDragOver_no_leave (h : DropHandlerSpec) :
    ∀ e ∈ runDragOver h, e.isDragLeave = false := by
  intro e he
  unfold runDragOver at he
  split_ifs at he <;> simp only [List.mem_singleton, List.not_mem_nil] at he
  subst he; rfl

/-- `dispatchOne` never emits a drag-leave event. -/
theorem dispatchOne_no_leave (action : DropHandlerAction) (x y : Int)
    (r : DropRecord) (d : DragData) (s : CursorState) :
    ∀ e ∈ (dispatchOne action x y r d s).2.2.2, e.isDragLeave = false := by
  intro e he
  rcases hr : r.rect with _ | rc
  · simp [dispatchOne, hr] at he
  · by_cases hhit : hitTestRect rc x y
    · by_cases hent : r.entered <;> cases action <;>
        simp only [dispatchOne, hr, hhit, hent, if_true, if_false, ite_true, ite_false,
          List.nil_append, List.mem_append, List.not_mem_nil, false_or] at he
      · exact runDragOver_no_leave _ e he
      · exact runDrop_no_leave _ d s e he
      · rcases he with he | he
        · exact runDragEnter_no_leave _ e he
        · exact runDragOver_no_leave _ e he
      · rcases he with he | he
        · exact runDragEnter_no_leave _ e he
        · exact runDrop_no_leave _ d s e he
    · simp [dispatchOne, hr, hhit] at he

/-- The dispatch pass never emits a drag-leave event. -/
theorem dispatchPass_no_leave (rs : List DropRecord) (action : DropHandlerAction)
    (x y : Int) (d : DragData) (s : CursorState) :
    ∀ e ∈ (dispatchPass rs action x y d s).events, e.isDragLeave = false := by
  induction rs generalizing d s with
  | nil => intro e he; simp [dispatchPass] at he
  | cons r rs ih =>
    intro e he
    unfold dispatchPass at he
    simp only [List.mem_append] at he
    rcases he with he | he
    · exact dispatchOne_no_leave action x y r d s e he
    · exact ih _ _ e he

/-- C1: on every dispatch tick of the drop registry — the drag pass and the
drop pass alike — every drag-leave callback for a previously-entered target
whose cached rect no longer contains the pointer is invoked (first loop)
before any drag-enter callback for a newly-contained target (second loop):
in the emitted trace, no drag-leave event occurs at or after the position
of any drag-enter event. -/
theorem leave_before_enter (action : DropHandlerAction) (x y : Int)
    (reg : List DropRecord) (d : DragData) (s : CursorState)
    (i j : Nat) (hij : i ≤ j) (e1 e2 : Ev)
    (h1 : (dropTrace action x y reg d s)[i]? = some e1)
    (h2 : (dropTrace action x y reg d s)[j]? = some e2)
    (henter : e1.isDragEnter = true) :
    e2.isDragLeave = false := by
  have htr : dropTrace action x y reg d s =
      (leavePass reg x y d s).events ++
        (dispatchPass (leavePass reg x y d s).registry action x y
          (leavePass reg x y d s).data (leavePass reg x y d s).cursor).events := rfl
  rw [htr] at h1 h2
  have hlen : (leavePass reg x y d s).events.length ≤ i := by
    by_contra hc
    push_neg at hc
    rw [List.getElem?_append_left hc] at h1
    rcases List.getElem?_eq_some.mp h1 with ⟨hlt, he⟩
    have hfalse := leavePass_no_enter reg x y d s e1 (he ▸ List.getElem_mem hlt)
    rw [henter] at hfalse
    exact Bool.noConfusion hfalse
  have hjlen : (leavePass reg x y d s).events.length ≤ j := le_trans hlen hij
  rw [List.getElem?_append_right hjlen] at h2
  rcases List.getElem?_eq_some.mp h2 with ⟨hlt, he⟩
  exact dispatchPass_no_leave _ action x y _ _ e2 (he ▸ List.getElem_mem hlt)

/-- Witness for C1 at a concrete tick: record A (id 0) was entered but its
cached rect misses the pointer, record B (id 1) is newly hit; the drag-pass
trace is leave A, enter B, over B, and the theorem applied at positions 1
and 2 confirms nothing at or after the enter is a leave. -/
theorem leave_before_enter_witness :
    ((1 : Nat) ≤ 2) ∧
    (dropTrace .Drag 50 50
        [⟨⟨0, ⟨0, 0, 10, 10⟩, false, false, true, false⟩, true, some ⟨0, 0, 10, 10⟩⟩,
         ⟨⟨1, ⟨40, 40, 60, 60⟩, true, true, false, false⟩, false, none⟩]
        ⟨"none", ⟨1, false⟩⟩ ⟨1, "no-drop", true⟩)[1]? = some (Ev.dragEnter 1) ∧
    (dropTrace .Drag 50 50
        [⟨⟨0, ⟨0, 0, 10, 10⟩, false, false, true, false⟩, true, some ⟨0, 0, 10, 10⟩⟩,
         ⟨⟨1, ⟨40, 40, 60, 60⟩, true, true, false, false⟩, false, none⟩]
        ⟨"none", ⟨1, false⟩⟩ ⟨1, "no-drop", true⟩)[2]? = some (Ev.dragOver 1) ∧
    (Ev.dragOver 1).isDragLeave = false := by
  refine ⟨by decide, by decide, by decide, ?_⟩
  exact leave_before_enter .Drag 50 50
    [⟨⟨0, ⟨0, 0, 10, 10⟩, false, false, true, false⟩, true, some ⟨0, 0, 10, 10⟩⟩,
     ⟨⟨1, ⟨40, 40, 60, 60⟩, true, true, false, false⟩, false, none⟩]
    ⟨"none", ⟨1, false⟩⟩ ⟨1, "no-drop", true⟩ 1 2 (by decide)
    (Ev.dragEnter 1) (Ev.dragOver 1) (by decide) (by decide) (by decide)

/-- The per-record effect of the leave pass on the registry: rect caching
plus the entered reset for records whose rect misses the pointer (the drag
data and cursor thread through separately). -/
def leaveStep (x y : Int) (r : DropRecord) : DropRecord :=
  let c := cacheRect r
  if c.2.entered then
    if hitTestRect c.1 x y then c.2 else { c.2 with entered := false }
  else c.2

/-- The registry after the leave pass is the pointwise `leaveStep` image. -/
theorem leavePass_registry (rs : List DropRecord) (x y : Int)
    (d : DragData) (s : CursorState) :
    (leavePass rs x y d s).registry = rs.map (leaveStep x y) := by
  induction rs generalizing d s with
  | nil => rfl
  | cons r rs ih =>
    by_cases hent : (cacheRect r).2.entered
    · by_cases hhit : hitTestRect (cacheRect r).1 x y
      · rw [leavePass]; simp [hent, hhit, leaveStep, ih]
      · rw [leavePass]; simp [hent, hhit, leaveStep, ih]
    · rw [leavePass]; simp [hent, leaveStep, ih]

/-- On a record whose effective rect contains the pointer, the leave pass
only caches the rect: handler and entered flag are unchanged. -/
theorem leaveStep_hit_fields (x y : Int) (r : DropRecord)
    (hhit : hitTestRect (r.rect.getD r.handler.nodeRect) x y = true) :
    (leaveStep x y r).handler = r.handler ∧
    (leaveStep x y r).entered = r.entered ∧
    (leaveStep x y r).rect = some (r.rect.getD r.handler.nodeRect) := by
  rcases r with ⟨h, ent, rect⟩
  rcases rect with _ | rc <;> rcases ent <;>
    simp_all [leaveStep, cacheRect, Option.getD]

/-- `dispatchPass` distributes over registry concatenation, threading the
drag data and cursor state left to right. -/
theorem dispatchPass_append (a b : List DropRecord) (action : DropHandlerAction)
    (x y : Int) (d : DragData) (s : CursorState) :
    dispatchPass (a ++ b) action x y d s =
      ⟨(dispatchPass a action x y d s).registry ++
         (dispatchPass b action x y (dispatchPass a action x y d s).data
           (dispatchPass a action x y d s).cursor).registry,
       (dispatchPass b action x y (dispatchPass a action x y d s).data
         (dispatchPass a action x y d s).cursor).data,
       (dispatchPass b action x y (dispatchPass a action x y d s).data
         (dispatchPass a action x y d s).cursor).cursor,
       (dispatchPass a action x y d s).events ++
         (dispatchPass b action x y (dispatchPass a action x y d s).data
           (dispatchPass a action x y d s).cursor).events⟩ := by
  induction a generalizing d s with
  | nil => simp [dispatchPass]
  | cons r a ih => simp [dispatchPass, ih]

/-- Setting `dropAction` to `'none'` always results in action `'none'`. -/
theorem setDropAction_none_action (d : DragData) (s : CursorState) :
    (d.setDropAction s "none").1.action = "none" := by
  unfold DragData.setDropAction
  split_ifs with h1 h2 h3 h4 h5 <;> simp_all [overrideCursor]

/-- The drag data action after `runDrop`: unchanged when a drop callback is
assigned, forced to `'none'` otherwise. -/
theorem runDrop_action (h : DropHandlerSpec) (d : DragData) (s : CursorState) :
    (runDrop h d s).1.action = if h.hasDrop then d.action else "none" := by
  unfold runDrop
  split_ifs <;> simp [setDropAction_none_action]

/-- In the drop pass, once the drag data action is `'none'` it stays
`'none'` through any single record dispatch. -/
theorem dispatchOne_none_persists (x y : Int) (r : DropRecord) (d : DragData)
    (s : CursorState) (hd : d.action = "none") :
    (dispatchOne .Drop x y r d s).2.1.action = "none" := by
  unfold dispatchOne
  rcases hr : r.rect with _ | rc
  · simpa using hd
  · by_cases hhit : hitTestRect rc x y <;> simp [hhit, runDrop_action, hd]

/-- In the drop pass, once the drag data action is `'none'` it stays
`'none'` through the rest of the pass. -/
theorem dispatchPass_none_persists (rs : List DropRecord) (x y : Int)
    (d : DragData) (s : CursorState) (hd : d.action = "none") :
    (dispatchPass rs .Drop x y d s).data.action = "none" := by
  induction rs generalizing d s with
  | nil => simpa [dispatchPass] using hd
  | cons r rs ih =>
    rw [dispatchPass]
    exact ih _ _ (dispatchOne_none_persists x y r d s hd)

/-- `dispatchOne` in the drop pass on a hit record, written out. -/
theorem dispatchOne_hit_drop (x y : Int) (r : DropRecord) (d : DragData)
    (s : CursorState) (rc : ClientRect) (hr : r.rect = some rc)
    (hhit : hitTestRect rc x y = true) :
    dispatchOne .Drop x y r d s =
      ((if r.entered then r else { r with entered := true }),
       (runDrop r.handler d s).1, (runDrop r.handler d s).2.1,
       (if r.entered then ([] : List Ev) else runDragEnter r.handler) ++
         (runDrop r.handler d s).2.2) := by
  unfold dispatchOne
  simp [hr, hhit]

/-- `runDrop` with an assigned drop callback: just the drop invocation. -/
theorem runDrop_hasDrop (h : DropHandlerSpec) (d : DragData) (s : CursorState)
    (hd : h.hasDrop = true) : runDrop h d s = (d, s, [Ev.drop h.id]) := by
  simp [runDrop, hd]

/-- In a drop pass over a registry containing a hit record with an assigned
drop callback, the emitted events contain that record's contiguous
enter-then-drop block. -/
theorem dispatchPass_drop_block (x y : Int) (a b : List DropRecord)
    (r : DropRecord) (d : DragData) (s : CursorState) (rc : ClientRect)
    (hr : r.rect = some rc) (hhit : hitTestRect rc x y = true)
    (hd : r.handler.hasDrop = true) :
    ∃ pre post, (dispatchPass (a ++ r :: b) .Drop x y d s).events =
      pre ++ ((if r.entered then [] else runDragEnter r.handler) ++
        [Ev.drop r.handler.id]) ++ post := by
  induction a generalizing d s with
  | nil =>
    refine ⟨[], (dispatchPass b .Drop x y
      (dispatchOne .Drop x y r d s).2.1 (dispatchOne .Drop x y r d s).2.2.1).events, ?_⟩
    rw [List.nil_append, dispatchPass]
    rw [dispatchOne_hit_drop x y r d s rc hr hhit, runDrop_hasDrop r.handler d s hd]
    simp
  | cons q a ih =>
    rw [List.cons_append, dispatchPass]
    obtain ⟨pre, post, hpp⟩ := ih (dispatchOne .Drop x y q d s).2.1
      (dispatchOne .Drop x y q d s).2.2.1
    refine ⟨(dispatchOne .Drop x y q d s).2.2.2 ++ pre, post, ?_⟩
    simp [hpp, List.append_assoc]

/-- In a drop pass over a registry containing a hit record with no drop
callback, the final drag data action is `'none'`. -/
theorem dispatchPass_drop_forces_none (x y : Int) (a b : List DropRecord)
    (r : DropRecord) (d : DragData) (s : CursorState) (rc : ClientRect)
    (hr : r.rect = some rc) (hhit : hitTestRect rc x y = true)
    (hd : r.handler.hasDrop = false) :
    (dispatchPass (a ++ r :: b) .Drop x y d s).data.action = "none" := by
  induction a generalizing d s with
  | nil =>
    rw [List.nil_append, dispatchPass]
    refine dispatchPass_none_persists b x y _ _ ?_
    rw [dispatchOne_hit_drop x y r d s rc hr hhit]
    simp [runDrop_action, hd]
  | cons q a ih =>
    rw [List.cons_append, dispatchPass]
    exact ih _ _

/-- C4: in every drop-pass dispatch, a registered record whose cached rect
contains the pointer receives its drop callback when one is assigned, as a
contiguous block in which the drag-enter invocation (fired only when the
record was not already entered) immediately precedes the drop invocation;
and when the matched record has no drop callback assigned, the dispatch
leaves the drag data's `dropAction` forced to `'none'`. -/
theorem drop_dispatch_matched (x y : Int) (reg : List DropRecord)
    (d : DragData) (s : CursorState) (l1 l2 : List DropRecord) (r : DropRecord)
    (hreg : reg = l1 ++ r :: l2)
    (hhit : hitTestRect (r.rect.getD r.handler.nodeRect) x y = true) :
    (r.handler.hasDrop = true →
      ∃ pre post, dropTrace .Drop x y reg d s =
        pre ++ ((if r.entered then [] else runDragEnter r.handler) ++
          [Ev.drop r.handler.id]) ++ post) ∧
    (r.handler.hasDrop = false →
      (runDropHandlers .Drop x y reg d s).data.action = "none") := by
  subst hreg
  obtain ⟨hh, hent, hrect⟩ := leaveStep_hit_fields x y r hhit
  have hmap : (leavePass (l1 ++ r :: l2) x y d s).registry =
      l1.map (leaveStep x y) ++ leaveStep x y r :: l2.map (leaveStep x y) := by
    rw [leavePass_registry]; simp
  constructor
  · intro hd
    obtain ⟨pre, post, hpp⟩ :=
      dispatchPass_drop_block x y (l1.map (leaveStep x y)) (l2.map (leaveStep x y))
        (leaveStep x y r)
        (leavePass (l1 ++ r :: l2) x y d s).data
        (leavePass (l1 ++ r :: l2) x y d s).cursor
        (r.rect.getD r.handler.nodeRect) hrect hhit (by rw [hh]; exact hd)
    refine ⟨(leavePass (l1 ++ r :: l2) x y d s).events ++ pre, post, ?_⟩
    have htr : dropTrace .Drop x y (l1 ++ r :: l2) d s =
        (leavePass (l1 ++ r :: l2) x y d s).events ++
          (dispatchPass ((leavePass (l1 ++ r :: l2) x y d s).registry) .Drop x y
            (leavePass (l1 ++ r :: l2) x y d s).data
            (leavePass (l1 ++ r :: l2) x y d s).cursor).events := rfl
    rw [htr, hmap, hpp, hh, hent]
    simp [List.append_assoc]
  · intro hd
    have hdata : (runDropHandlers .Drop x y (l1 ++ r :: l2) d s).data =
        (dispatchPass ((leavePass (l1 ++ r :: l2) x y d s).registry) .Drop x y
          (leavePass (l1 ++ r :: l2) x y d s).data
          (leavePass (l1 ++ r :: l2) x y d s).cursor).data := rfl
    rw [hdata, hmap]
    exact dispatchPass_drop_forces_none x y _ _ _ _ _ _ hrect hhit (by rw [hh]; exact hd)

/-- Witness for C4 at a concrete dispatch: a single registered target with
drag-enter and drop callbacks, not yet entered, whose rect contains the
pointer; the drop-pass trace contains the enter-then-drop block. -/
theorem drop_dispatch_matched_witness :
    hitTestRect (((⟨⟨7, ⟨0, 0, 100, 100⟩, true, false, false, true⟩, false, none⟩ :
        DropRecord).rect).getD ⟨0, 0, 100, 100⟩) 5 5 = true ∧
    (∃ pre post, dropTrace .Drop 5 5
        [⟨⟨7, ⟨0, 0, 100, 100⟩, true, false, false, true⟩, false, none⟩]
        ⟨"none", ⟨1, false⟩⟩ ⟨1, "no-drop", true⟩ =
      pre ++ ((if (⟨⟨7, ⟨0, 0, 100, 100⟩, true, false, false, true⟩, false, none⟩ :
          DropRecord).entered then []
        else runDragEnter ⟨7, ⟨0, 0, 100, 100⟩, true, false, false, true⟩) ++
        [Ev.drop 7]) ++ post) :=
  ⟨by decide,
    (drop_dispatch_matched 5 5
      [⟨⟨7, ⟨0, 0, 100, 100⟩, true, false, false, true⟩, false, none⟩]
      ⟨"none", ⟨1, false⟩⟩ ⟨1, "no-drop", true⟩ [] []
      ⟨⟨7, ⟨0, 0, 100, 100⟩, true, false, false, true⟩, false, none⟩
      rfl (by decide)).1 rfl⟩

/-- `DRAG_THRESHOLD`: the number of pixels of movement before the drag/drop
lifecycle begins. -/
def DRAG_THRESHOLD : Nat := 5

/-- The mutable state of a `DragHandler`: the recorded press position, the
`_ignoreThreshold` flag set by the synthetic `start`, the in-flight
`_dragData`, the three callback slots (presence only), whether the
document-level capturing move/up listeners are installed, and whether
`_node` is still attached (non-null, false after dispose). -/
structure DragHandlerState where
  pressX : Int
  pressY : Int
  ignoreThreshold : Bool
  dragData : Option DragData
  hasDragStart : Bool
  hasDrag : Bool
  hasDragEnd : Bool
  listening : Bool
  nodeAttached : Bool
deriving Repr, DecidableEq

/-- A freshly constructed drag handler: `_pressX = _pressY = -1`,
`_ignoreThreshold = false`, `_dragData = null`, no document listeners. -/
def initDragHandler (hs hm he : Bool) : DragHandlerState :=
  ⟨-1, -1, false, none, hs, hm, he, false, true⟩

/-- The whole engine state: one drag handler, the drop registry, and the
document cursor state. -/
structure Sys where
  handler : DragHandlerState
  registry : List DropRecord
  cursor : CursorState
deriving Repr, DecidableEq

/-- The raw mouse events fed to `handleEvent`, each carrying a button index
and client coordinates. -/
inductive MouseEvt where
  | mousedown (button : Nat) (clientX clientY : Int)
  | mousemove (clientX clientY : Int)
  | mouseup (button : Nat) (clientX clientY : Int)
deriving Repr, DecidableEq

/-- `_evtMouseDown`: bail if a drag is in progress or the button is not the
primary one; otherwise record the press position and install the document
move/up listeners. -/
def evtMouseDown (s : Sys) (button : Nat) (x y : Int) : Sys × List Ev :=
  if s.handler.dragData.isSome then (s, [])
  else if button ≠ 0 then (s, [])
  else ({ s with handler := { s.handler with
      pressX := x
      pressY := y
      listening := true } }, [])

/-- The drag-start block of `_evtMouseMove`: invalidate the cached drop
data, construct the `DragData` (installing the `'no-drop'` override), and
run the drag-start handler. -/
def startDragPhase (s : Sys) : Sys × List Ev :=
  let cr := DragData.create s.cursor
  ({ s with
      registry := invalidateCachedDropData s.registry
      cursor := cr.2.1
      handler := { s.handler with dragData := some cr.1 } },
    cr.2.2 ++ (if s.handler.hasDragStart then [Ev.dragStart cr.1.action] else []))

/-- The tail of `_evtMouseMove` once a drag is in flight: reposition the
ghost (cosmetic, not modelled), run the drop handlers' drag pass, then the
drag callback; `pre` carries the events already emitted by the drag-start
block of the same tick. -/
def moveDragPhase (s : Sys) (x y : Int) (dd : DragData) (pre : List Ev) : Sys × List Ev :=
  let dr := runDropHandlers .Drag x y s.registry dd s.cursor
  ({ s with
      registry := dr.registry
      cursor := dr.cursor
      handler := { s.handler with dragData := some dr.data } },
    pre ++ dr.events ++ (if s.handler.hasDrag then [Ev.drag] else []))

/-- `_evtMouseMove`: delivered only while the document listeners are
installed.  Below the per-axis threshold (no drag in flight, threshold not
ignored) it returns early; otherwise it starts the drag if needed, then
runs the drag phase on the (possibly just created) drag data. -/
def evtMouseMove (s : Sys) (x y : Int) : Sys × List Ev :=
  if ¬ s.handler.listening then (s, [])
  else if s.handler.dragData.isNone ∧ s.handler.ignoreThreshold = false ∧
      (x - s.handler.pressX).natAbs < DRAG_THRESHOLD ∧
      (y - s.handler.pressY).natAbs < DRAG_THRESHOLD then (s, [])
  else
    match s.handler.dragData with
    | some dd => moveDragPhase s x y dd []
    | none =>
      let st := startDragPhase s
      match st.1.handler.dragData with
      | some dd => moveDragPhase st.1 x y dd st.2
      | none => st

/-- `_evtMouseUp`: delivered only while the document listeners are
installed.  Non-primary releases are ignored before anything else; a
primary release removes the document listeners, bails when no drag is in
flight, and otherwise runs the drop pass, the drag-end handler, and
disposes the drag data (dropping the ghost and disposing its override). -/
def evtMouseUp (s : Sys) (button : Nat) (x y : Int) : Sys × List Ev :=
  if ¬ s.handler.listening then (s, [])
  else if button ≠ 0 then (s, [])
  else
    match s.handler.dragData with
    | none => ({ s with handler := { s.handler with listening := false } }, [])
    | some dd =>
      let dr := runDropHandlers .Drop x y s.registry dd s.cursor
      ({ handler := { s.handler with
            listening := false
            dragData := none }
         registry := dr.registry
         cursor := (dr.data.overrideRef.dispose dr.cursor).2 },
        dr.events ++ (if s.handler.hasDragEnd then [Ev.dragEnd] else []))

/-- `DragHandler.start(clientX, clientY)`: a no-op when a drag is in
flight; otherwise record the position, ignore the threshold for future
moves, and install the document listeners. -/
def DragHandler.start (s : Sys) (x y : Int) : Sys :=
  if s.handler.dragData.isSome then s
  else { s with handler := { s.handler with
      pressX := x
      pressY := y
      ignoreThreshold := true
      listening := true } }

/-- `handleEvent`: route each DOM event to its handler. -/
def step (s : Sys) : MouseEvt → Sys × List Ev
  | .mousedown b x y => evtMouseDown s b x y
  | .mousemove x y => evtMouseMove s x y
  | .mouseup b x y => evtMouseUp s b x y

/-- Run a sequence of mouse events, concatenating the emitted callbacks. -/
def runEvents (s : Sys) : List MouseEvt → Sys × List Ev
  | [] => (s, [])
  | e :: es =>
    let r1 := step s e
    let r2 := runEvents r1.1 es
    (r2.1, r1.2 ++ r2.2)

/-- `DragHandler.dispose()`: remove the document listeners (always safe),
then `this._node.removeEventListener('mousedown', this)` — which faults
with a TypeError when `_node` has already been nulled by a previous
dispose — then null the node, dispose any in-flight drag data (removing
the ghost and disposing its cursor override), and null the callbacks. -/
def dragHandlerDispose (s : Sys) : Except String Sys :=
  if ¬ s.handler.nodeAttached then
    Except.error "TypeError: this._node is null"
  else
    let h1 : DragHandlerState := { s.handler with
      listening := false
      nodeAttached := false
      hasDragStart := false
      hasDrag := false
      hasDragEnd := false }
    match s.handler.dragData with
    | none => Except.ok { s with handler := h1 }
    | some dd =>
      Except.ok { s with
        handler := { h1 with dragData := none }
        cursor := (dd.overrideRef.dispose s.cursor).2 }

/-- C3 (code bug): a first `DragHandler.dispose` succeeds, but a second
dispose dereferences the nulled `_node` and throws a TypeError — while the
`DropHandler` registry removal and the cursor-override disposable really
are idempotent.  This contradicts the blanket claim that double-dispose
never throws. -/
theorem double_dispose_behaviour :
    ((dragHandlerDispose ⟨initDragHandler true true true, [], initialCursorState⟩).bind
        dragHandlerDispose = Except.error "TypeError: this._node is null") ∧
    (∀ reg id, dropHandlerDispose (dropHandlerDispose reg id) id =
        dropHandlerDispose reg id) ∧
    (∀ (o : Override) (s : CursorState),
        ((o.dispose s).1).dispose (o.dispose s).2 = ((o.dispose s).1, (o.dispose s).2)) := by
  refine ⟨rfl, ?_, ?_⟩
  · intro reg id
    induction reg with
    | nil => rfl
    | cons r rs ih =>
      by_cases hr : r.handler.id = id <;> simp [dropHandlerDispose, hr] at ih ⊢
  · intro o s
    by_cases hd : o.disposed <;> simp [Override.dispose, hd]

/-- C7: a press with any non-primary button is ignored outright (no state
change, no callback), and a release with a non-primary button — in any
state, Pending or Active included — is ignored before any teardown, so it
never triggers the drag-end callback. -/
theorem nonprimary_button_ignored (s : Sys) (b : Nat) (x y : Int) (hb : b ≠ 0) :
    step s (.mousedown b x y) = (s, []) ∧ step s (.mouseup b x y) = (s, []) := by
  constructor
  · show evtMouseDown s b x y = (s, [])
    unfold evtMouseDown
    by_cases hd : s.handler.dragData.isSome <;> simp [hd, hb]
  · show evtMouseUp s b x y = (s, [])
    unfold evtMouseUp
    by_cases hl : s.handler.listening <;> simp [hl, hb]

/-- Witness for C7: with a drag in flight (Active state), a button-1 press
and a button-1 release both leave the system untouched and fire nothing. -/
theorem nonprimary_button_ignored_witness :
    ((1 : Nat) ≠ 0) ∧
    step ⟨⟨0, 0, false, some ⟨"none", ⟨1, false⟩⟩, true, true, true, true, true⟩,
        [], ⟨1, "no-drop", true⟩⟩ (.mousedown 1 7 8) =
      (⟨⟨0, 0, false, some ⟨"none", ⟨1, false⟩⟩, true, true, true, true, true⟩,
        [], ⟨1, "no-drop", true⟩⟩, []) ∧
    step ⟨⟨0, 0, false, some ⟨"none", ⟨1, false⟩⟩, true, true, true, true, true⟩,
        [], ⟨1, "no-drop", true⟩⟩ (.mouseup 1 7 8) =
      (⟨⟨0, 0, false, some ⟨"none", ⟨1, false⟩⟩, true, true, true, true, true⟩,
        [], ⟨1, "no-drop", true⟩⟩, []) :=
  ⟨by decide,
    (nonprimary_button_ignored
      ⟨⟨0, 0, false, some ⟨"none", ⟨1, false⟩⟩, true, true, true, true, true⟩,
        [], ⟨1, "no-drop", true⟩⟩ 1 7 8 (by decide)).1,
    (nonprimary_button_ignored
      ⟨⟨0, 0, false, some ⟨"none", ⟨1, false⟩⟩, true, true, true, true, true⟩,
        [], ⟨1, "no-drop", true⟩⟩ 1 7 8 (by decide)).2⟩

/-- Recognizer for drag-start events. -/
def Ev.isDragStart : Ev → Bool
  | .dragStart _ => true
  | _ => false

/-- `runDragLeave` never emits a drag-start event. -/
theorem runDragLeave_no_start (h : DropHandlerSpec) (d : DragData) (s : CursorState) :
    ∀ e ∈ (runDragLeave h d s).2.2, e.isDragStart = false := by
  intro e he
  unfold runDragLeave at he
  simp only [List.mem_append] at he
  rcases he with he | he
  · split_ifs at he <;> simp only [List.mem_singleton, List.not_mem_nil] at he
    subst he; rfl
  · rcases setDropAction_events d s "none" with h0 | ⟨c, h0⟩ <;> rw [h0] at he <;>
      simp only [List.mem_singleton, List.not_mem_nil] at he
    subst he; rfl

/-- The leave pass never emits a drag-start event. -/
theorem leavePass_no_start (rs : List DropRecord) (x y : Int)
    (d : DragData) (s : CursorState) :
    ∀ e ∈ (leavePass rs x y d s).events, e.isDragStart = false := by
  induction rs generalizing d s with
  | nil => intro e he; simp [leavePass] at he
  | cons r rs ih =>
    intro e he
    by_cases hent : (cacheRect r).2.entered
    · by_cases hhit : hitTestRect (cacheRect r).1 x y
      · rw [leavePass] at he
        simp [hent, hhit] at he
        exact ih d s e he
      · rw [leavePass] at he
        simp [hent, hhit] at he
        rcases he with he | he
        · exact runDragLeave_no_start _ d s e he
        · exact ih _ _ e he
    · rw [leavePass] at he
      simp [hent] at he
      exact ih d s e he

/-- `runDragEnter` never emits a drag-start event. -/
theorem runDragEnter_no_start (h : DropHandlerSpec) :
    ∀ e ∈ runDragEnter h, e.isDragStart = false := by
  intro e he
  unfold runDragEnter at he
  split_ifs at he <;> simp only [List.mem_singleton, List.not_mem_nil] at he
  subst he; rfl

/-- `runDragOver` never emits a drag-start event. -/
theorem runDragOver_no_start (h : DropHandlerSpec) :
    ∀ e ∈ runDragOver h, e.isDragStart = false := by
  intro e he
  unfold runDragOver at he
  split_ifs at he <;> simp only [List.mem_singleton, List.not_mem_nil] at he
  subst he; rfl

/-- `runDrop` never emits a drag-start event. -/
theorem runDrop_no_start (h : DropHandlerSpec) (d : DragData) (s : CursorState) :
    ∀ e ∈ (runDrop h d s).2.2, e.isDragStart = false := by
  intro e he
  unfold runDrop at he
  split_ifs at he
  · simp only [List.mem_singleton] at he; subst he; rfl
  · rcases setDropAction_events d s "none" with h0 | ⟨c, h0⟩ <;> rw [h0] at he <;>
      simp only [List.mem_singleton, List.not_mem_nil] at he
    subst he; rfl

/-- `dispatchOne` never emits a drag-start event. -/
theorem dispatchOne_no_start (action : DropHandlerAction) (x y : Int)
    (r : DropRecord) (d : DragData) (s : CursorState) :
    ∀ e ∈ (dispatchOne action x y r d s).2.2.2, e.isDragStart = false := by
  intro e he
  rcases hr : r.rect with _ | rc
  · simp [dispatchOne, hr] at he
  · by_cases hhit : hitTestRect rc x y
    · by_cases hent : r.entered <;> cases action <;>
        simp only [dispatchOne, hr, hhit, hent, if_true, if_false, ite_true, ite_false,
          List.nil_append, List.mem_append, List.not_mem_nil, false_or] at he
      · exact runDragOver_no_start _ e he
      · exact runDrop_no_start _ d s e he
      · rcases he with he | he
        · exact runDragEnter_no_start _ e he
        · exact runDragOver_no_start _ e he
      · rcases he with he | he
        · exact runDragEnter_no_start _ e he
        · exact runDrop_no_start _ d s e he
    · simp [dispatchOne, hr, hhit] at he

/-- The dispatch pass never emits a drag-start event. -/
theorem dispatchPass_no_start (rs : List DropRecord) (action : DropHandlerAction)
    (x y : Int) (d : DragData) (s : CursorState) :
    ∀ e ∈ (dispatchPass rs action x y d s).events, e.isDragStart = false := by
  induction rs generalizing d s with
  | nil => intro e he; simp [dispatchPass] at he
  | cons r rs ih =>
    intro e he
    unfold dispatchPass at he
    simp only [List.mem_append] at he
    rcases he with he | he
    · exact dispatchOne_no_start action x y r d s e he
    · exact ih _ _ e he

/-- No `runDropHandlers` dispatch ever emits a drag-start event. -/
theorem runDropHandlers_no_start (action : DropHandlerAction) (x y : Int)
    (reg : List DropRecord) (d : DragData) (s : CursorState) :
    ∀ e ∈ (runDropHandlers action x y reg d s).events, e.isDragStart = false := by
  intro e he
  have htr : (runDropHandlers action x y reg d s).events =
      (leavePass reg x y d s).events ++
        (dispatchPass (leavePass reg x y d s).registry action x y
          (leavePass reg x y d s).data (leavePass reg x y d s).cursor).events := rfl
  rw [htr, List.mem_append] at he
  rcases he with he | he
  · exact leavePass_no_start reg x y d s e he
  · exact dispatchPass_no_start _ action x y _ _ e he

/-- A move below the per-axis threshold (with no drag in flight and the
threshold not ignored) is a complete no-op. -/
theorem evtMouseMove_below (s : Sys) (x y : Int)
    (hd : s.handler.dragData = none) (hi : s.handler.ignoreThreshold = false)
    (hx : (x - s.handler.pressX).natAbs < DRAG_THRESHOLD)
    (hy : (y - s.handler.pressY).natAbs < DRAG_THRESHOLD) :
    evtMouseMove s x y = (s, []) := by
  unfold evtMouseMove
  by_cases hl : s.handler.listening
  · simp [hl, hd, hi, hx, hy]
  · simp [hl]

/-- A move while a drag is in flight keeps the drag in flight, leaves the
listener installation unchanged, and never fires a drag-start callback. -/
theorem evtMouseMove_active (s : Sys) (x y : Int) (dd : DragData)
    (hd : s.handler.dragData = some dd) :
    (evtMouseMove s x y).1.handler.dragData.isSome = true ∧
    (evtMouseMove s x y).1.handler.listening = s.handler.listening ∧
    ∀ e ∈ (evtMouseMove s x y).2, e.isDragStart = false := by
  unfold evtMouseMove
  by_cases hl : s.handler.listening
  · simp only [hl, not_true, if_false, hd, Option.isNone_some, false_and, ite_false,
      moveDragPhase]
    refine ⟨rfl, rfl, ?_⟩
    intro e he
    rw [List.nil_append] at he
    rcases List.mem_append.mp he with he | he
    · exact runDropHandlers_no_start _ x y _ dd _ e he
    · split_ifs at he <;> simp only [List.mem_singleton, List.not_mem_nil] at he
      subst he; rfl
  · simp [hl, hd]

/-- The move that starts a drag: the drag ends up in flight with listeners
still installed, and the tick's events are the `'no-drop'` override
installation first, then the drag-start callback (when assigned) carrying
action `'none'`, then only events that are not drag-start. -/
theorem evtMouseMove_start_shape (s : Sys) (x y : Int)
    (hl : s.handler.listening = true) (hd : s.handler.dragData = none)
    (hthr : ¬(s.handler.ignoreThreshold = false ∧
      (x - s.handler.pressX).natAbs < DRAG_THRESHOLD ∧
      (y - s.handler.pressY).natAbs < DRAG_THRESHOLD)) :
    (evtMouseMove s x y).1.handler.dragData.isSome = true ∧
    (evtMouseMove s x y).1.handler.listening = true ∧
    ∃ rest, ((evtMouseMove s x y).2 =
        Ev.cursorOverride "no-drop" ::
          ((if s.handler.hasDragStart then [Ev.dragStart "none"] else []) ++ rest)) ∧
      ∀ e ∈ rest, e.isDragStart = false := by
  unfold evtMouseMove
  rw [if_neg (by simp [hl]),
    if_neg (by rw [hd]; simp only [Option.isNone_none, true_and]; exact hthr)]
  simp only [hd]
  simp only [startDragPhase, DragData.create, overrideCursor, moveDragPhase, hl]
  refine ⟨rfl, trivial,
    (runDropHandlers .Drag x y (invalidateCachedDropData s.registry)
        ⟨"none", ⟨s.cursor.overrideID + 1, false⟩⟩
        ⟨s.cursor.overrideID + 1, "no-drop", true⟩).events ++
      (if s.handler.hasDrag then [Ev.drag] else []), ?_, ?_⟩
  · simp [List.append_assoc]
  · intro e he
    rcases List.mem_append.mp he with he | he
    · exact runDropHandlers_no_start _ x y _ _ _ e he
    · split_ifs at he <;> simp only [List.mem_singleton, List.not_mem_nil] at he
      subst he; rfl

/-- `runEvents` distributes over concatenation of event sequences. -/
theorem runEvents_append (s : Sys) (a b : List MouseEvt) :
    runEvents s (a ++ b) =
      ((runEvents (runEvents s a).1 b).1,
        (runEvents s a).2 ++ (runEvents (runEvents s a).1 b).2) := by
  induction a generalizing s with
  | nil => simp [runEvents]
  | cons e a ih => simp [runEvents, ih]

/-- A run of moves all below the threshold (press recorded, no drag in
flight, threshold not ignored) is a complete no-op. -/
theorem runEvents_below (s : Sys) (ms : List (Int × Int))
    (hd : s.handler.dragData = none) (hi : s.handler.ignoreThreshold = false)
    (hb : ∀ p ∈ ms, max (p.1 - s.handler.pressX).natAbs (p.2 - s.handler.pressY).natAbs <
      DRAG_THRESHOLD) :
    runEvents s (ms.map fun p => MouseEvt.mousemove p.1 p.2) = (s, []) := by
  induction ms with
  | nil => rfl
  | cons p ms ih =>
    obtain ⟨hx, hy⟩ := Nat.max_lt.mp (hb p (List.mem_cons_self p ms))
    have hstep : step s (.mousemove p.1 p.2) = (s, []) :=
      evtMouseMove_below s p.1 p.2 hd hi hx hy
    simp [runEvents, hstep, ih (fun q hq => hb q (List.mem_cons_of_mem p hq))]

/-- A run of moves while a drag is in flight keeps it in flight and fires
no drag-start callback. -/
theorem runEvents_moves_active (s : Sys) (ms : List (Int × Int))
    (hd : s.handler.dragData.isSome = true) :
    (runEvents s (ms.map fun p => MouseEvt.mousemove p.1 p.2)).1.handler.dragData.isSome
        = true ∧
    ∀ e ∈ (runEvents s (ms.map fun p => MouseEvt.mousemove p.1 p.2)).2,
      e.isDragStart = false := by
  induction ms generalizing s with
  | nil => exact ⟨hd, by simp [runEvents]⟩
  | cons p ms ih =>
    obtain ⟨dd, hdd⟩ := Option.isSome_iff_exists.mp hd
    obtain ⟨h1, h2, h3⟩ := evtMouseMove_active s p.1 p.2 dd hdd
    obtain ⟨ih1, ih2⟩ := ih (evtMouseMove s p.1 p.2).1 h1
    constructor
    · simpa [runEvents, step] using ih1
    · intro e he
      simp only [List.map_cons, runEvents, step] at he
      rcases List.mem_append.mp he with he | he
      · exact h3 e he
      · exact ih2 e he

/-- C6: for every press-and-move sequence (press recorded, threshold not
ignored, listeners installed): while every move stays within
`DRAG_THRESHOLD - 1` pixels of the press point in the code's per-axis
(Chebyshev) displacement metric, no callback fires at all and the state is
untouched; and for a sequence whose first threshold-reaching move occurs
after such a prefix, the drag-start callback (when assigned) fires exactly
once over the whole sequence. -/
theorem drag_threshold_single_start (s : Sys) (ms : List (Int × Int))
    (hd : s.handler.dragData = none) (hi : s.handler.ignoreThreshold = false)
    (hl : s.handler.listening = true) :
    ((∀ p ∈ ms, max (p.1 - s.handler.pressX).natAbs (p.2 - s.handler.pressY).natAbs <
        DRAG_THRESHOLD) →
      runEvents s (ms.map fun p => MouseEvt.mousemove p.1 p.2) = (s, [])) ∧
    (∀ pre m post, ms = pre ++ m :: post →
      (∀ p ∈ pre, max (p.1 - s.handler.pressX).natAbs (p.2 - s.handler.pressY).natAbs <
        DRAG_THRESHOLD) →
      DRAG_THRESHOLD ≤ max (m.1 - s.handler.pressX).natAbs (m.2 - s.handler.pressY).natAbs →
      s.handler.hasDragStart = true →
      (runEvents s (ms.map fun p => MouseEvt.mousemove p.1 p.2)).2.countP
        (fun e => e.isDragStart) = 1) := by
  constructor
  · intro hb
    exact runEvents_below s ms hd hi hb
  · intro pre m post hms hpre hm hs
    subst hms
    have hthr : ¬(s.handler.ignoreThreshold = false ∧
        (m.1 - s.handler.pressX).natAbs < DRAG_THRESHOLD ∧
        (m.2 - s.handler.pressY).natAbs < DRAG_THRESHOLD) := by
      rintro ⟨-, hx, hy⟩
      exact absurd (Nat.max_lt.mpr ⟨hx, hy⟩) (not_lt.mpr hm)
    have hmap : (pre ++ m :: post).map (fun p => MouseEvt.mousemove p.1 p.2) =
        pre.map (fun p => MouseEvt.mousemove p.1 p.2) ++
          (MouseEvt.mousemove m.1 m.2 :: post.map (fun p => MouseEvt.mousemove p.1 p.2)) := by
      simp
    rw [hmap, runEvents_append, runEvents_below s pre hd hi hpre]
    obtain ⟨h1, h2, rest, hshape, hrest⟩ := evtMouseMove_start_shape s m.1 m.2 hl hd hthr
    obtain ⟨ha1, ha2⟩ := runEvents_moves_active (evtMouseMove s m.1 m.2).1 post h1
    simp only [runEvents, step]
    rw [List.countP_append, List.countP_append, hshape]
    have hr0 : rest.countP (fun e => e.isDragStart) = 0 :=
      List.countP_eq_zero.mpr (fun e he => by simp [hrest e he])
    have hc1 : (Ev.cursorOverride "no-drop" ::
        ((if s.handler.hasDragStart then [Ev.dragStart "none"] else []) ++ rest)).countP
          (fun e => e.isDragStart) = 1 := by
      simp only [hs, ite_true, List.cons_append, List.singleton_append]
      rw [List.countP_cons, List.countP_cons, List.nil_append, hr0]
      rfl
    have hc2 : ((runEvents (evtMouseMove s m.1 m.2).1
        (post.map fun p => MouseEvt.mousemove p.1 p.2)).2).countP
          (fun e => e.isDragStart) = 0 :=
      List.countP_eq_zero.mpr (fun e he => by simp [ha2 e he])
    simp [hc1, hc2]

/-- Witness for C6: pressing at (0,0), the moves (3,0) · (5,0) · (6,0) —
one below threshold, one exactly at the 5-pixel threshold, one after — fire
the drag-start callback exactly once. -/
theorem drag_threshold_single_start_witness :
    ((∀ p ∈ [((3 : Int), (0 : Int))],
        max (p.1 - (0 : Int)).natAbs (p.2 - (0 : Int)).natAbs < DRAG_THRESHOLD) ∧
      DRAG_THRESHOLD ≤ max ((5 : Int) - 0).natAbs ((0 : Int) - 0).natAbs) ∧
    (runEvents ⟨⟨0, 0, false, none, true, false, false, true, true⟩, [], initialCursorState⟩
        ([((3 : Int), (0 : Int)), (5, 0), (6, 0)].map fun p =>
          MouseEvt.mousemove p.1 p.2)).2.countP (fun e => e.isDragStart) = 1 :=
  ⟨⟨by decide, by decide⟩,
    (drag_threshold_single_start
        ⟨⟨0, 0, false, none, true, false, false, true, true⟩, [], initialCursorState⟩
        [(3, 0), (5, 0), (6, 0)] rfl rfl rfl).2
      [(3, 0)] (5, 0) [(6, 0)] rfl (by decide) (by decide) rfl⟩

/-- C10: on the gesture-starting move the `DragData` is constructed with
`dropAction` `'none'` and its construction installs the document-wide
`'no-drop'` cursor override, both before the drag-start callback runs: the
tick's first event is the `'no-drop'` override installation, and the
drag-start callback (when assigned) is invoked immediately after, with the
data still carrying action `'none'`. -/
theorem dragData_created_before_dragStart (s : Sys) (x y : Int)
    (hl : s.handler.listening = true) (hd : s.handler.dragData = none)
    (hthr : ¬(s.handler.ignoreThreshold = false ∧
      (x - s.handler.pressX).natAbs < DRAG_THRESHOLD ∧
      (y - s.handler.pressY).natAbs < DRAG_THRESHOLD)) :
    (evtMouseMove s x y).2.head? = some (Ev.cursorOverride "no-drop") ∧
    (s.handler.hasDragStart = true →
      (evtMouseMove s x y).2[1]? = some (Ev.dragStart "none")) ∧
    (DragData.create s.cursor).1.action = "none" := by
  obtain ⟨h1, h2, rest, hshape, hrest⟩ := evtMouseMove_start_shape s x y hl hd hthr
  refine ⟨?_, ?_, rfl⟩
  · rw [hshape]; rfl
  · intro hs
    rw [hshape]
    simp [hs]

/-- Witness for C10: a pressed handler at (0,0) with a drag-start callback,
moving to (9,0): the tick opens with the `'no-drop'` override and the
drag-start callback receives action `'none'`. -/
theorem dragData_created_before_dragStart_witness :
    (evtMouseMove ⟨⟨0, 0, false, none, true, false, false, true, true⟩, [],
        initialCursorState⟩ 9 0).2.head? = some (Ev.cursorOverride "no-drop") ∧
    (evtMouseMove ⟨⟨0, 0, false, none, true, false, false, true, true⟩, [],
        initialCursorState⟩ 9 0).2[1]? = some (Ev.dragStart "none") :=
  ⟨(dragData_created_before_dragStart
      ⟨⟨0, 0, false, none, true, false, false, true, true⟩, [], initialCursorState⟩
      9 0 rfl rfl (by decide)).1,
    (dragData_created_before_dragStart
      ⟨⟨0, 0, false, none, true, false, false, true, true⟩, [], initialCursorState⟩
      9 0 rfl rfl (by decide)).2.1 rfl⟩

/-- C2 counterexample: one registered target at (100,100)–(200,200) with no
callbacks; press at (0,0), move to (150,150) (drag starts and enters the
target), release at (150,150).  After the mouseup no gesture is in flight
(`dragData = none`), yet the record still has `entered = true`. -/
theorem entered_true_after_gesture_cex :
    ((runEvents ⟨⟨0, 0, false, none, false, false, false, false, true⟩,
        [⟨⟨0, ⟨100, 100, 200, 200⟩, false, false, false, false⟩, false, none⟩],
        initialCursorState⟩
      [.mousedown 0 0 0, .mousemove 150 150, .mouseup 0 150 150]).1.handler.dragData
        = none) ∧
    ((runEvents ⟨⟨0, 0, false, none, false, false, false, false, true⟩,
        [⟨⟨0, ⟨100, 100, 200, 200⟩, false, false, false, false⟩, false, none⟩],
        initialCursorState⟩
      [.mousedown 0 0 0, .mousemove 150 150, .mouseup 0 150 150]).1.registry.map
        DropRecord.entered = [true]) := by
  exact ⟨rfl, rfl⟩

/-- C2 (amended): `entered` is force-reset exactly by invalidation:
`invalidateCachedDropData` clears every record's `entered` flag and cached
rect, and the gesture-starting block runs on the invalidated registry; but
ending a gesture performs no reset — a primary-button mouseup with a drag
in flight leaves the registry exactly as the drop pass computed it, while
discarding the drag data — so a record may keep `entered = true` while no
gesture is in flight, until the next invalidation. -/
theorem entered_reset_only_by_invalidate (reg : List DropRecord) (s : Sys)
    (x y : Int) (dd : DragData) :
    (∀ r ∈ invalidateCachedDropData reg, r.entered = false ∧ r.rect = none) ∧
    ((startDragPhase s).1.registry = invalidateCachedDropData s.registry) ∧
    (s.handler.listening = true → s.handler.dragData = some dd →
      (evtMouseUp s 0 x y).1.registry =
        (runDropHandlers .Drop x y s.registry dd s.cursor).registry ∧
      (evtMouseUp s 0 x y).1.handler.dragData = none) := by
  refine ⟨?_, rfl, ?_⟩
  · intro r hr
    simp only [invalidateCachedDropData, List.mem_map] at hr
    obtain ⟨q, hq, rfl⟩ := hr
    exact ⟨rfl, rfl⟩
  · intro hl hdd
    unfold evtMouseUp
    simp [hl, hdd]

/-- Witness for the amended C2: invalidating a one-record registry with
`entered = true` clears it, and a primary mouseup over that target ends the
gesture leaving the drop-pass registry untouched. -/
theorem entered_reset_only_by_invalidate_witness :
    (∀ r ∈ invalidateCachedDropData
        [⟨⟨0, ⟨100, 100, 200, 200⟩, false, false, false, false⟩, true,
          some ⟨100, 100, 200, 200⟩⟩],
      r.entered = false ∧ r.rect = none) ∧
    ((evtMouseUp ⟨⟨0, 0, false, some ⟨"none", ⟨1, false⟩⟩, false, false, false, true, true⟩,
        [⟨⟨0, ⟨100, 100, 200, 200⟩, false, false, false, false⟩, true,
          some ⟨100, 100, 200, 200⟩⟩],
        ⟨1, "no-drop", true⟩⟩ 0 150 150).1.handler.dragData = none) :=
  ⟨(entered_reset_only_by_invalidate
      [⟨⟨0, ⟨100, 100, 200, 200⟩, false, false, false, false⟩, true,
        some ⟨100, 100, 200, 200⟩⟩]
      ⟨⟨0, 0, false, some ⟨"none", ⟨1, false⟩⟩, false, false, false, true, true⟩,
        [⟨⟨0, ⟨100, 100, 200, 200⟩, false, false, false, false⟩, true,
          some ⟨100, 100, 200, 200⟩⟩],
        ⟨1, "no-drop", true⟩⟩ 150 150 ⟨"none", ⟨1, false⟩⟩).1,
    ((entered_reset_only_by_invalidate
      [⟨⟨0, ⟨100, 100, 200, 200⟩, false, false, false, false⟩, true,
        some ⟨100, 100, 200, 200⟩⟩]
      ⟨⟨0, 0, false, some ⟨"none", ⟨1, false⟩⟩, false, false, false, true, true⟩,
        [⟨⟨0, ⟨100, 100, 200, 200⟩, false, false, false, false⟩, true,
          some ⟨100, 100, 200, 200⟩⟩],
        ⟨1, "no-drop", true⟩⟩ 150 150 ⟨"none", ⟨1, false⟩⟩).2.2 rfl rfl).2⟩
